import Mathlib

set_option maxRecDepth 100000

/-!
Verification development for the compliance/risk pipeline of the repository:
the Policy Engine (`app/ai/policy_engine.py`), the Risk Scorer
(`app/ai/risk_scorer.py`) and the Transaction Monitor
(`app/core/transaction_monitor.py`), shallowly embedded in Lean.

Modelling conventions:
- Python `str.lower()` / `str.upper()` are modelled by ASCII case mapping
  (`Char.toLower` / `Char.toUpper`); every string the core compares this way
  (hex addresses, severity tags) is ASCII.
- Python `set[str]` is modelled by `Finset String`; `dict` registries that
  rely on insertion order are modelled by lists with unique keys.
- Wall-clock `timestamp` fields (`datetime.now()`) are dropped: no compared
  behaviour reads them.
- The risk scorer computes its weighted average in IEEE-754 binary64
  floating point.  That arithmetic is embedded exactly: `roundB64` rounds a
  rational to the nearest binary64 value (round-to-nearest, ties-to-even,
  53-bit significand; every quantity arising in the scorer is far inside the
  normal range, so overflow and subnormals cannot occur), and each float
  operation of the source is one exact operation followed by `roundB64`.
-/

/-- ASCII model of Python `str.lower()`. -/
def strLower (s : String) : String := String.mk (s.data.map Char.toLower)

/-- ASCII model of Python `str.upper()`. -/
def strUpper (s : String) : String := String.mk (s.data.map Char.toUpper)

/-- Model of Python `str.startswith(p)`. -/
def leadsWith : List Char → List Char → Bool
  | [], _ => true
  | _ :: _, [] => false
  | a :: as, b :: bs => decide (a = b) && leadsWith as bs

/-- Model of Python `s.startswith(p)` on strings. -/
def strStartsWith (s p : String) : Bool := leadsWith p.data s.data

/-- Python `str(x)` for an optional string, as used in f-strings:
`None` prints as `"None"`. -/
def pyStr : Option String → String
  | some s => s
  | none => "None"

/-- An exact fraction `num / (den1 + 1)`: the denominator is positive by
construction.  Used to embed the scorer's binary64 float values and the
exact intermediate quantities of the rounding function; representations are
not normalized (all comparisons cross-multiply), which keeps every operation
structurally recursive and kernel-reducible. -/
structure Frac where
  num : Int
  den1 : Nat
  deriving DecidableEq

/-- The (positive) denominator of a `Frac`. -/
def Frac.den (x : Frac) : Int := (x.den1 : Int) + 1

/-- Embed an integer. -/
def Frac.ofInt (n : Int) : Frac := { num := n, den1 := 0 }

/-- Exact product of fractions. -/
def Frac.mulx (a b : Frac) : Frac :=
  { num := a.num * b.num, den1 := (a.den1 + 1) * (b.den1 + 1) - 1 }

/-- Exact sum of fractions. -/
def Frac.addx (a b : Frac) : Frac :=
  { num := a.num * b.den + b.num * a.den
    den1 := (a.den1 + 1) * (b.den1 + 1) - 1 }

/-- Exact quotient of fractions (junk value 0 on division by zero, which the
embedded code never performs). -/
def Frac.divx (a b : Frac) : Frac :=
  if 0 < b.num then
    { num := a.num * b.den, den1 := (a.den1 + 1) * b.num.toNat - 1 }
  else if b.num < 0 then
    { num := -(a.num * b.den), den1 := (a.den1 + 1) * (-b.num).toNat - 1 }
  else
    { num := 0, den1 := 0 }

/-- Value-level strict order on fractions. -/
def Frac.ltx (a b : Frac) : Bool := decide (a.num * b.den < b.num * a.den)

/-- Floor of the base-2 logarithm of a positive natural number, by fuel
recursion so that it reduces definitionally (`log2floor n = k` iff
`2 ^ k ≤ n < 2 ^ (k + 1)` for `n ≥ 1`; the fuel `n` is always sufficient). -/
def log2floorAux : Nat → Nat → Nat
  | 0, _ => 0
  | fuel + 1, n => if n < 2 then 0 else 1 + log2floorAux fuel (n / 2)

/-- Floor of the base-2 logarithm of a positive natural number. -/
def log2floor (n : Nat) : Nat := log2floorAux n n

/-- Decide `n / d < 2 ^ e` for positive naturals `n`, `d` and an integer
exponent. -/
def ltPow2 (n d : Nat) (e : Int) : Bool :=
  if 0 ≤ e then decide (n < d * 2 ^ e.toNat) else decide (n * 2 ^ (-e).toNat < d)

/-- Decide `2 ^ e ≤ n / d` for positive naturals `n`, `d` and an integer
exponent. -/
def gePow2 (n d : Nat) (e : Int) : Bool :=
  if 0 ≤ e then decide (d * 2 ^ e.toNat ≤ n) else decide (d ≤ n * 2 ^ (-e).toNat)

/-- Round the positive fraction `n / d` to the nearest binary64 value
(round-to-nearest, ties-to-even, 53-bit significand; every quantity arising
in the risk scorer is far inside the normal range, so overflow and
subnormals cannot occur). -/
def roundPosND (n d : Nat) : Frac :=
  let e0 : Int := (log2floor n : Int) - (log2floor d : Int)
  let e : Int :=
    if ltPow2 n d e0 then e0 - 1
    else if gePow2 n d (e0 + 1) then e0 + 1
    else e0
  let s : Int := 52 - e
  let mn : Nat := n * (if 0 ≤ s then 2 ^ s.toNat else 1)
  let md : Nat := d * (if 0 ≤ s then 1 else 2 ^ (-s).toNat)
  let fl : Nat := mn / md
  let rem : Nat := mn % md
  let r : Nat :=
    if 2 * rem < md then fl
    else if md < 2 * rem then fl + 1
    else if fl % 2 = 0 then fl else fl + 1
  if 0 ≤ s then { num := (r : Int), den1 := 2 ^ s.toNat - 1 }
  else { num := (r : Int) * ((2 ^ (-s).toNat : Nat) : Int), den1 := 0 }

/-- Round any fraction to the nearest binary64 value. -/
def roundB64 (q : Frac) : Frac :=
  if q.num = 0 then { num := 0, den1 := 0 }
  else if 0 < q.num then roundPosND q.num.toNat (q.den1 + 1)
  else
    let r := roundPosND (-q.num).toNat (q.den1 + 1)
    { r with num := -r.num }

/-- Binary64 multiplication: exact product, correctly rounded. -/
def fmul (x y : Frac) : Frac := roundB64 (x.mulx y)

/-- Binary64 addition: exact sum, correctly rounded. -/
def fadd (x y : Frac) : Frac := roundB64 (x.addx y)

/-- Binary64 division: exact quotient, correctly rounded. -/
def fdiv (x y : Frac) : Frac := roundB64 (x.divx y)

/-- Python `int(x)` on a float: truncation toward zero (`Int.tdiv` is
exactly T-division). -/
def int_of (q : Frac) : Int := Int.tdiv q.num q.den

/-! ## Policy engine (`app/ai/policy_engine.py`) -/

/-- Severity levels for policy violations (`PolicySeverity`). -/
inductive PolicySeverity where
  | info
  | low
  | medium
  | high
  | critical
  deriving DecidableEq

/-- Python string value of a `PolicySeverity` member. -/
def PolicySeverity.value : PolicySeverity → String
  | .info => "info"
  | .low => "low"
  | .medium => "medium"
  | .high => "high"
  | .critical => "critical"

/-- Types of compliance policies (`PolicyType`). -/
inductive PolicyType where
  | transaction_value
  | blocked_address
  | gas_limit
  | function_call
  | contract_interaction
  | custom
  deriving DecidableEq

/-- The keys of the untyped `config` dict that the engine reads.
`none` for `max_value` / `max_gas` models an absent key, whose
`float("inf")` default makes the corresponding comparison never fire;
absent list keys are conflated with `[]`, the only way the code reads them. -/
structure PolicyConfig where
  max_value : Option Int := none
  max_gas : Option Int := none
  addresses : List String := []
  contracts : List String := []
  deriving DecidableEq

/-- A compliance policy (`CompliancePolicy`). -/
structure CompliancePolicy where
  name : String
  policy_type : PolicyType
  severity : PolicySeverity
  description : String := ""
  enabled : Bool := true
  config : PolicyConfig := {}
  deriving DecidableEq

/-- A policy violation (`PolicyViolation`).  Of the untyped `details` map only
the `"role"` key is modelled (the only key a verified claim inspects); the
wall-clock timestamp is dropped. -/
structure PolicyViolation where
  policy_name : String
  policy_type : PolicyType
  severity : PolicySeverity
  message : String
  details_role : Option String := none
  deriving DecidableEq

/-- Result of a compliance check (`ComplianceResult`). -/
structure ComplianceResult where
  passed : Bool
  violations : List PolicyViolation := []
  policies_checked : Nat := 0
  deriving DecidableEq

/-- Policy engine state: the insertion-ordered policy registry
(`self._policies`, a dict keyed by unique name) and the blocked-address
cache (`self._blocked_addresses`, a set). -/
structure PolicyEngine where
  policies : List CompliancePolicy
  blocked_addresses : Finset String

/-- Python dict assignment `self._policies[policy.name] = policy`:
replace in place if the name is present (keeping its position),
otherwise append. -/
def upsertPolicy : List CompliancePolicy → CompliancePolicy → List CompliancePolicy
  | [], p => [p]
  | q :: qs, p => if q.name = p.name then p :: qs else q :: upsertPolicy qs p

/-- `PolicyEngine.add_policy`: upsert by name; for a blocked-address policy,
union its lower-cased configured addresses into the cache. -/
def add_policy (e : PolicyEngine) (policy : CompliancePolicy) : PolicyEngine :=
  { policies := upsertPolicy e.policies policy
    blocked_addresses :=
      if policy.policy_type = PolicyType.blocked_address then
        e.blocked_addresses ∪ (policy.config.addresses.map strLower).toFinset
      else
        e.blocked_addresses }

/-- `PolicyEngine.remove_policy`: delete the named policy if present;
the blocked-address cache is left untouched. -/
def remove_policy (e : PolicyEngine) (policy_name : String) : PolicyEngine :=
  { e with policies := e.policies.filter (fun p => p.name ≠ policy_name) }

/-- The config update performed by `add_blocked_address` on each registered
policy: append the original-case address to the `"blocked_addresses"` policy's
configured list if the exact string is not already listed; leave every other
policy unchanged. -/
def append_blocked_config (address : String) (p : CompliancePolicy) : CompliancePolicy :=
  if p.name = "blocked_addresses" then
    if address ∈ p.config.addresses then p
    else { p with config := { p.config with addresses := p.config.addresses ++ [address] } }
  else p

/-- `PolicyEngine.add_blocked_address`: add the lower-cased address to the
cache, and append the original-case address to the `"blocked_addresses"`
policy's configured list if that policy exists and the exact string is not
already listed. -/
def add_blocked_address (e : PolicyEngine) (address : String) : PolicyEngine :=
  { policies := e.policies.map (append_blocked_config address)
    blocked_addresses := insert (strLower address) e.blocked_addresses }

/-- `PolicyEngine.remove_blocked_address`: discard the lower-cased address
from the cache only; policy configs are not updated. -/
def remove_blocked_address (e : PolicyEngine) (address : String) : PolicyEngine :=
  { e with blocked_addresses := e.blocked_addresses.erase (strLower address) }

/-- The four built-in policies installed by `_load_default_policies`,
in registration order. -/
def default_policies : List CompliancePolicy :=
  [ { name := "max_transaction_value"
      policy_type := PolicyType.transaction_value
      severity := PolicySeverity.high
      description := "Flag transactions exceeding maximum allowed value"
      config := { max_value := some 1000000000000 } }
  , { name := "high_gas_warning"
      policy_type := PolicyType.gas_limit
      severity := PolicySeverity.medium
      description := "Flag transactions with unusually high gas usage"
      config := { max_gas := some 100000 } }
  , { name := "blocked_addresses"
      policy_type := PolicyType.blocked_address
      severity := PolicySeverity.critical
      description := "Block transactions involving sanctioned addresses"
      config := { addresses := [] } }
  , { name := "suspicious_contracts"
      policy_type := PolicyType.contract_interaction
      severity := PolicySeverity.high
      description := "Flag interactions with known malicious contracts"
      config := { contracts := [] } } ]

/-- `PolicyEngine.__init__`: empty registry and cache, then the four
default policies added through `add_policy`. -/
def PolicyEngine.init : PolicyEngine :=
  default_policies.foldl add_policy { policies := [], blocked_addresses := ∅ }

/-- Transaction payload: the `payload` argument is an optional dict; the
engine reads only its `"function"` key and its truthiness. -/
def payloadFunction (kvs : List (String × String)) : String :=
  ((kvs.lookup "function").getD "")

/-- `PolicyEngine._check_policy`: evaluate a single policy against one
transaction, returning at most one violation. -/
def check_policy (blocked : Finset String) (policy : CompliancePolicy)
    (sender : String) (receiver : Option String) (value : Int) (gas_used : Int)
    (payload : Option (List (String × String))) : Option PolicyViolation :=
  match policy.policy_type with
  | PolicyType.transaction_value =>
    match policy.config.max_value with
    | some max_value =>
      if max_value < value then
        some { policy_name := policy.name
               policy_type := policy.policy_type
               severity := policy.severity
               message := "Transaction value " ++ toString value ++
                 " exceeds maximum " ++ toString max_value }
      else none
    | none => none
  | PolicyType.blocked_address =>
    let sender_lower := strLower sender
    let receiver_lower := match receiver with
      | some r => strLower r
      | none => ""
    if sender_lower ∈ blocked then
      some { policy_name := policy.name
             policy_type := policy.policy_type
             severity := policy.severity
             message := "Sender " ++ sender ++ " is blocked"
             details_role := some "sender" }
    else if receiver_lower ∈ blocked then
      some { policy_name := policy.name
             policy_type := policy.policy_type
             severity := policy.severity
             message := "Receiver " ++ pyStr receiver ++ " is blocked"
             details_role := some "receiver" }
    else none
  | PolicyType.gas_limit =>
    match policy.config.max_gas with
    | some max_gas =>
      if max_gas < gas_used then
        some { policy_name := policy.name
               policy_type := policy.policy_type
               severity := policy.severity
               message := "Gas usage " ++ toString gas_used ++
                 " exceeds threshold " ++ toString max_gas }
      else none
    | none => none
  | PolicyType.contract_interaction =>
    match payload with
    | none => none
    | some kvs =>
      if kvs = [] then none
      else
        let func := payloadFunction kvs
        match policy.config.contracts.find?
            (fun contract => decide ((strLower contract).toList <:+: (strLower func).toList)) with
        | some contract =>
          some { policy_name := policy.name
                 policy_type := policy.policy_type
                 severity := policy.severity
                 message := "Interaction with suspicious contract: " ++ contract }
        | none => none
  | PolicyType.function_call => none
  | PolicyType.custom => none

/-- `PolicyEngine.check_transaction`: evaluate every enabled policy in
registration order, collecting all violations. -/
def check_transaction (e : PolicyEngine) (sender : String)
    (receiver : Option String) (value : Int) (gas_used : Int)
    (payload : Option (List (String × String))) : ComplianceResult :=
  let enabled := e.policies.filter (fun p => p.enabled)
  let violations := enabled.filterMap
    (fun p => check_policy e.blocked_addresses p sender receiver value gas_used payload)
  { passed := violations.isEmpty
    violations := violations
    policies_checked := enabled.length }

/-! ## Risk scorer (`app/ai/risk_scorer.py`) -/

/-- Modelled from the spec: `app/ai/vulnerability.py` is not part of the
provided sources; the spec describes vulnerability findings as carrying a
severity (one of info/low/medium/high/critical) and a human-readable title. -/
inductive VulnerabilitySeverity where
  | info
  | low
  | medium
  | high
  | critical
  deriving DecidableEq

/-- Modelled from the spec: the Python string value of a
`VulnerabilitySeverity` member. -/
def VulnerabilitySeverity.value : VulnerabilitySeverity → String
  | .info => "info"
  | .low => "low"
  | .medium => "medium"
  | .high => "high"
  | .critical => "critical"

/-- Modelled from the spec: one vulnerability finding (severity + title),
the only fields of the missing `Vulnerability` type that the risk scorer
reads. -/
structure Vulnerability where
  severity : VulnerabilitySeverity
  title : String
  deriving DecidableEq

/-- Modelled from the spec: a vulnerability scan report, holding the list of
findings.  The per-severity counts the scorer reads
(`critical_count`, …) count the findings of that severity. -/
structure VulnerabilityReport where
  vulnerabilities : List Vulnerability
  deriving DecidableEq

/-- Modelled from the spec: number of critical findings in the report. -/
def VulnerabilityReport.critical_count (r : VulnerabilityReport) : Nat :=
  (r.vulnerabilities.filter (fun v => v.severity = VulnerabilitySeverity.critical)).length

/-- Modelled from the spec: number of high findings in the report. -/
def VulnerabilityReport.high_count (r : VulnerabilityReport) : Nat :=
  (r.vulnerabilities.filter (fun v => v.severity = VulnerabilitySeverity.high)).length

/-- Modelled from the spec: number of medium findings in the report. -/
def VulnerabilityReport.medium_count (r : VulnerabilityReport) : Nat :=
  (r.vulnerabilities.filter (fun v => v.severity = VulnerabilitySeverity.medium)).length

/-- Modelled from the spec: number of low findings in the report. -/
def VulnerabilityReport.low_count (r : VulnerabilityReport) : Nat :=
  (r.vulnerabilities.filter (fun v => v.severity = VulnerabilitySeverity.low)).length

/-- An anomaly finding (`AnomalyFinding` in `app/ai/anomaly.py`).
`confidence` is a Python float; it is modelled as its exact value. -/
structure AnomalyFinding where
  category : String
  severity : String
  title : String
  description : String := ""
  confidence : Frac
  evidence : List String := []
  recommendations : List String := []
  deriving DecidableEq

/-- An anomaly analysis report (`AnomalyReport` in `app/ai/anomaly.py`);
the wall-clock timestamp is dropped. -/
structure AnomalyReport where
  analysis_type : String
  target : String
  findings : List AnomalyFinding := []
  summary : String := ""
  risk_assessment : String := ""
  deriving DecidableEq

/-- Overall risk level classification (`RiskLevel`). -/
inductive RiskLevel where
  | safe
  | low
  | medium
  | high
  | critical
  deriving DecidableEq

/-- Aggregated risk score (`RiskScore`); the breakdown dict is modelled as
an insertion-ordered association list; the wall-clock timestamp is dropped. -/
structure RiskScore where
  score : Nat
  level : RiskLevel
  breakdown : List (String × Nat) := []
  factors : List String := []
  recommendations : List String := []
  deriving DecidableEq

/-- `RiskScorer.SEVERITY_SCORES` with the dict-lookup default of 0. -/
def SEVERITY_SCORES (s : String) : Nat :=
  if s = "info" then 5
  else if s = "low" then 15
  else if s = "medium" then 35
  else if s = "high" then 65
  else if s = "critical" then 95
  else 0

/-- `RiskScorer.WEIGHTS["compliance"]`: the binary64 value of the Python
literal `0.35`. -/
def weight_compliance : Frac := roundB64 { num := 35, den1 := 99 }

/-- `RiskScorer.WEIGHTS["vulnerability"]`: the binary64 value of `0.40`. -/
def weight_vulnerability : Frac := roundB64 { num := 40, den1 := 99 }

/-- `RiskScorer.WEIGHTS["anomaly"]`: the binary64 value of `0.25`. -/
def weight_anomaly : Frac := roundB64 { num := 25, den1 := 99 }

/-- `RiskScorer._score_compliance`. -/
def score_compliance (result : ComplianceResult) : Nat :=
  if result.violations = [] then 0
  else
    let max_severity := result.violations.foldl
      (fun m v => max m (SEVERITY_SCORES v.severity.value)) 0
    let violation_count_bonus := min (result.violations.length * 5) 25
    min 100 (max_severity + violation_count_bonus)

/-- `RiskScorer._score_vulnerabilities`. -/
def score_vulnerabilities (report : VulnerabilityReport) : Nat :=
  if report.vulnerabilities = [] then 0
  else
    let max_severity := report.vulnerabilities.foldl
      (fun m v => max m (SEVERITY_SCORES v.severity.value)) 0
    let count_bonus :=
      report.critical_count * 15 +
      report.high_count * 10 +
      report.medium_count * 5 +
      report.low_count * 2
    min 100 (max_severity + min count_bonus 30)

/-- `RiskScorer._score_anomalies`.  The source computes
`int(severity_score * finding.confidence)` in binary64; `int_of ∘ fmul` is
that computation exactly, and `Int.toNat` is harmless because the running
maximum starts at 0. -/
def score_anomalies (report : AnomalyReport) : Nat :=
  if report.findings = [] then 0
  else
    let max_severity := report.findings.foldl
      (fun m f =>
        max m (int_of (fmul (Frac.ofInt (SEVERITY_SCORES f.severity : Int)) f.confidence)).toNat) 0
    let count_bonus := min (report.findings.length * 5) 20
    min 100 (max_severity + count_bonus)

/-- `RiskScorer._score_to_level`. -/
def score_to_level (score : Nat) : RiskLevel :=
  if score < 10 then RiskLevel.safe
  else if score < 30 then RiskLevel.low
  else if score < 55 then RiskLevel.medium
  else if score < 80 then RiskLevel.high
  else RiskLevel.critical

/-- Python `list(dict.fromkeys(l))`: deduplicate keeping the first
occurrence of each element. -/
def dedupFirst : List String → List String
  | [] => []
  | a :: l => a :: dedupFirst (l.filter (fun b => b ≠ a))
termination_by l => l.length
decreasing_by
  simp only [List.length_cons]
  exact Nat.lt_succ_of_le (List.length_filter_le _ _)

/-- `RiskScorer.calculate_risk_score`.  The weighted-average block
(`total_score`, `total_weight`, the division and `int()`) is the source's
binary64 float computation embedded exactly via `fadd`/`fmul`/`fdiv`/`int_of`
(the initial Python value `0` is an exact float, and every accumulation is
one correctly-rounded operation). -/
def calculate_risk_score (compliance_result : Option ComplianceResult)
    (vulnerability_report : Option VulnerabilityReport)
    (anomaly_report : Option AnomalyReport) : RiskScore :=
  let compliance_score : Nat := match compliance_result with
    | some r => score_compliance r
    | none => 0
  let vuln_score : Nat := match vulnerability_report with
    | some r => score_vulnerabilities r
    | none => 0
  let anomaly_score : Nat := match anomaly_report with
    | some r => score_anomalies r
    | none => 0
  let breakdown : List (String × Nat) :=
    (match compliance_result with
     | some _ => [("compliance", compliance_score)]
     | none => []) ++
    (match vulnerability_report with
     | some _ => [("vulnerability", vuln_score)]
     | none => []) ++
    (match anomaly_report with
     | some _ => [("anomaly", anomaly_score)]
     | none => [])
  let factors : List String :=
    (match compliance_result with
     | some r => r.violations.map (fun v => "Policy violation: " ++ v.message)
     | none => []) ++
    (match vulnerability_report with
     | some r => r.vulnerabilities.map
         (fun v => strUpper v.severity.value ++ ": " ++ v.title)
     | none => []) ++
    (match anomaly_report with
     | some r => r.findings.map (fun f => strUpper f.severity ++ ": " ++ f.title)
     | none => [])
  let recommendations : List String :=
    (match compliance_result with
     | some r => if r.violations = [] then [] else ["Review and address policy violations"]
     | none => []) ++
    (match vulnerability_report with
     | some r =>
       if r.vulnerabilities = [] then []
       else
         (if 0 < r.critical_count then ["Address critical vulnerabilities immediately"] else []) ++
         (if 0 < r.high_count then ["Review and fix high-severity issues"] else [])
     | none => []) ++
    (match anomaly_report with
     | some r => (r.findings.map (fun f => f.recommendations)).flatten
     | none => [])
  let total_score : Frac := Frac.ofInt 0
  let total_weight : Frac := Frac.ofInt 0
  let total_score : Frac :=
    if compliance_result.isSome then
      fadd total_score (fmul (Frac.ofInt (compliance_score : Int)) weight_compliance)
    else total_score
  let total_weight : Frac :=
    if compliance_result.isSome then fadd total_weight weight_compliance
    else total_weight
  let total_score : Frac :=
    if vulnerability_report.isSome then
      fadd total_score (fmul (Frac.ofInt (vuln_score : Int)) weight_vulnerability)
    else total_score
  let total_weight : Frac :=
    if vulnerability_report.isSome then fadd total_weight weight_vulnerability
    else total_weight
  let total_score : Frac :=
    if anomaly_report.isSome then
      fadd total_score (fmul (Frac.ofInt (anomaly_score : Int)) weight_anomaly)
    else total_score
  let total_weight : Frac :=
    if anomaly_report.isSome then fadd total_weight weight_anomaly
    else total_weight
  let final_score : Int :=
    if (Frac.ofInt 0).ltx total_weight then int_of (fdiv total_score total_weight) else 0
  let final_score : Int := max 0 (min 100 final_score)
  let risk_level := score_to_level final_score.toNat
  { score := final_score.toNat
    level := risk_level
    breakdown := breakdown
    factors := factors.take 10
    recommendations := (dedupFirst recommendations).take 5 }

/-! ## Transaction monitor (`app/core/transaction_monitor.py`) -/

/-- Outcome of a Python numeric coercion `int(tx_data.get(key, 0))`:
either the coerced integer, or `err` when the coercion raises. -/
inductive Coerced where
  | ok (value : Int)
  | err
  deriving DecidableEq

/-- A raw transaction record as returned by the RPC collaborator.
A `Coerced`-valued field is the outcome of the numeric coercion
(`int(tx_data.get(key, 0))`).  `Option`-valued string fields model
present/absent dict keys.  The opaque `changes`/`raw` passthrough blobs are
never read by the core and are omitted. -/
structure RawTx where
  version : Coerced
  hash : Option String
  sender : Option String
  typ : Option String
  success : Bool
  gas_used : Coerced
  timestamp_us : Coerced
  payload : List (String × String) := []
  deriving DecidableEq

/-- A monitored transaction event (`TransactionEvent`).
`timestamp_us` is the parsed microsecond count; `none` models the
`datetime.now()` fallback taken when the timestamp coercion raises. -/
structure TransactionEvent where
  hash : String
  version : Int
  sender : String
  typ : String
  timestamp_us : Option Int
  success : Bool
  gas_used : Int
  payload : List (String × String) := []
  deriving DecidableEq

/-- `TransactionMonitor._parse_transaction`: `none` models the except-branch
(an uncaught exception inside the try), which fires exactly when the
`version` or `gas_used` coercion raises; a failed timestamp coercion is
caught by the inner try and falls back to "now". -/
def parse_transaction (tx : RawTx) : Option TransactionEvent :=
  match tx.version, tx.gas_used with
  | Coerced.ok v, Coerced.ok g =>
    some { hash := tx.hash.getD ""
           version := v
           sender := tx.sender.getD ""
           typ := tx.typ.getD "unknown"
           timestamp_us := match tx.timestamp_us with
             | Coerced.ok t => some t
             | Coerced.err => none
           success := tx.success
           gas_used := g
           payload := tx.payload }
  | _, _ => none

/-- Monitor-owned mutable state touched by a poll iteration:
`self._last_version`, `self._monitored_addresses` and the
`self._recent_transactions` ring buffer. -/
structure MonitorState where
  lastVersion : Int
  monitored : Finset String
  recent : List TransactionEvent := []

/-- `TransactionMonitor.add_monitored_address`. -/
def add_monitored_address (monitored : Finset String) (address : String) : Finset String :=
  let address := if strStartsWith address "0x" then address else "0x" ++ address
  insert (strLower address) monitored

/-- `TransactionMonitor.remove_monitored_address`. -/
def remove_monitored_address (monitored : Finset String) (address : String) : Finset String :=
  let address := if strStartsWith address "0x" then address else "0x" ++ address
  (monitored).erase (strLower address)

/-- `TransactionMonitor._should_process`. -/
def should_process (monitored : Finset String) (event : TransactionEvent) : Bool :=
  if monitored = ∅ then true
  else decide (strLower event.sender ∈ monitored)

/-- Append to the `deque(maxlen=100)` ring buffer. -/
def push_recent (recent : List TransactionEvent) (event : TransactionEvent) :
    List TransactionEvent :=
  let r := recent ++ [event]
  if 100 < r.length then r.drop (r.length - 100) else r

/-- `TransactionMonitor._poll_transactions`, given the page of raw records the
RPC collaborator returned for this iteration.  Returns the post-iteration
state and the list of events delivered to callbacks, in delivery order.
A raising `version` coercion propagates to the iteration's outer `except`:
the remaining records of the page are dropped and state mutations made so far
are kept.  Callback exceptions are caught per callback and cannot affect the
iteration, so delivery itself is total. -/
def poll_transactions (s : MonitorState) :
    List RawTx → MonitorState × List TransactionEvent
  | [] => (s, [])
  | tx :: rest =>
    match tx.version with
    | Coerced.err => (s, [])
    | Coerced.ok v =>
      if s.lastVersion < v then
        let s1 : MonitorState := { s with lastVersion := v }
        match parse_transaction tx with
        | none => poll_transactions s1 rest
        | some event =>
          if should_process s1.monitored event then
            let s2 : MonitorState := { s1 with recent := push_recent s1.recent event }
            let res := poll_transactions s2 rest
            (res.1, event :: res.2)
          else
            poll_transactions s1 rest
      else
        poll_transactions s rest

/-- A sequence of poll iterations of the monitor loop: each element of
`polls` is the raw page one iteration receives.  Returns the final state and
the concatenation of all delivered events in delivery order. -/
def run_polls (s : MonitorState) :
    List (List RawTx) → MonitorState × List TransactionEvent
  | [] => (s, [])
  | page :: rest =>
    let r1 := poll_transactions s page
    let r2 := run_polls r1.1 rest
    (r2.1, r1.2 ++ r2.2)

/-! ## Operation model and spec-side definitions for the cache invariant -/

/-- One mutating operation on the policy engine. -/
inductive EngineOp where
  | addPol (p : CompliancePolicy)
  | removePol (policy_name : String)
  | addBlocked (address : String)
  | removeBlocked (address : String)
  deriving DecidableEq

/-- Apply one operation to the engine. -/
def apply_op (e : PolicyEngine) : EngineOp → PolicyEngine
  | EngineOp.addPol p => add_policy e p
  | EngineOp.removePol n => remove_policy e n
  | EngineOp.addBlocked a => add_blocked_address e a
  | EngineOp.removeBlocked a => remove_blocked_address e a

/-- Apply a sequence of operations to the engine. -/
def apply_ops (e : PolicyEngine) (ops : List EngineOp) : PolicyEngine :=
  ops.foldl apply_op e

/-- Spec-side definition, following the spec's words: the union of the
lower-cased configured address lists of all currently registered
blocked-address policies.  To be compared against the code's in-memory
cache `PolicyEngine.blocked_addresses`. -/
def spec_blocked_union : List CompliancePolicy → Finset String
  | [] => ∅
  | p :: ps =>
    (if p.policy_type = PolicyType.blocked_address
     then (p.config.addresses.map strLower).toFinset else ∅) ∪ spec_blocked_union ps

/-- Whether an operation is a `remove_blocked_address` call. -/
def EngineOp.isRemoveBlocked : EngineOp → Bool
  | EngineOp.removeBlocked _ => true
  | _ => false

/-! ## Concrete fixtures used by the closed theorems -/

/-- Engine obtained by blocking an address and then unblocking it again. -/
def engine_add_remove_blocked : PolicyEngine :=
  remove_blocked_address (add_blocked_address PolicyEngine.init "0xdead") "0xdead"

/-- A vulnerability report with 14 low-severity findings: its sub-score is
43, the input on which the scorer's float division loses 1. -/
def report14low : VulnerabilityReport :=
  { vulnerabilities :=
      List.replicate 14 { severity := VulnerabilitySeverity.low, title := "weak hash" } }

/-- The spec's worked example: one critical and two low vulnerabilities. -/
def report1c2l : VulnerabilityReport :=
  { vulnerabilities :=
      [ { severity := VulnerabilitySeverity.critical, title := "reentrancy" }
      , { severity := VulnerabilitySeverity.low, title := "a" }
      , { severity := VulnerabilitySeverity.low, title := "b" } ] }

/-- A compliance result holding the same violation twice. -/
def crDup : ComplianceResult :=
  { passed := false
    violations :=
      [ { policy_name := "max_transaction_value"
          policy_type := PolicyType.transaction_value
          severity := PolicySeverity.high
          message := "x" }
      , { policy_name := "max_transaction_value"
          policy_type := PolicyType.transaction_value
          severity := PolicySeverity.high
          message := "x" } ]
    policies_checked := 4 }

/-- A sample parsed event with the given sender. -/
def sampleEvent (sender : String) : TransactionEvent :=
  { hash := "0xh"
    version := 1
    sender := sender
    typ := "user_transaction"
    timestamp_us := some 0
    success := true
    gas_used := 0 }

/-- A fresh monitor state with no address filter. -/
def s0 : MonitorState := { lastVersion := 0, monitored := ∅ }

/-- A raw record whose `hash` key is absent but which is otherwise sound. -/
def txNoHash : RawTx :=
  { version := Coerced.ok 5
    hash := none
    sender := some "0xabc"
    typ := some "user_transaction"
    success := true
    gas_used := Coerced.ok 3
    timestamp_us := Coerced.ok 0 }

/-- A raw record whose `gas_used` coercion raises. -/
def txGasErr : RawTx :=
  { version := Coerced.ok 7
    hash := some "0xg"
    sender := some "0xabc"
    typ := some "user_transaction"
    success := true
    gas_used := Coerced.err
    timestamp_us := Coerced.ok 0 }

/-- A raw record whose `version` coercion raises. -/
def txVersionErr : RawTx :=
  { version := Coerced.err
    hash := some "0xv"
    sender := some "0xabc"
    typ := some "user_transaction"
    success := true
    gas_used := Coerced.ok 3
    timestamp_us := Coerced.ok 0 }

/-- A value-ceiling policy with the default ceiling, as installed by
`_load_default_policies`. -/
def valueCeilingPolicy : CompliancePolicy :=
  { name := "max_transaction_value"
    policy_type := PolicyType.transaction_value
    severity := PolicySeverity.high
    description := "Flag transactions exceeding maximum allowed value"
    config := { max_value := some 1000000000000 } }

/-- A blocked-address policy record (critical severity, as the default). -/
def blockedPolicy : CompliancePolicy :=
  { name := "blocked_addresses"
    policy_type := PolicyType.blocked_address
    severity := PolicySeverity.critical
    description := "Block transactions involving sanctioned addresses"
    config := { addresses := [] } }

/-! ## Helper lemmas -/

theorem foldl_max_map {α : Type} (f : α → Nat) (l : List α) : ∀ a : Nat,
    l.foldl (fun m x => max m (f x)) a = max a ((l.map f).foldr max 0) := by
  induction l with
  | nil => intro a; simp
  | cons x l ih => intro a; simp [ih, Nat.max_assoc]

theorem parse_transaction_version {tx : RawTx} {v : Int} {event : TransactionEvent}
    (hv : tx.version = Coerced.ok v) (hp : parse_transaction tx = some event) :
    event.version = v := by
  cases hg : tx.gas_used with
  | ok g =>
    simp only [parse_transaction, hv, hg, Option.some.injEq] at hp
    rw [← hp]
  | err => simp [parse_transaction, hv, hg] at hp

/-! ## Claims about the risk scorer -/

/-- C1: the claim says the final score is the weighted average of the
present category sub-scores.  The code computes that average in binary64
floating point: on a vulnerability-only report with sub-score 43 the float
quotient `43*0.40/0.40` evaluates to just below 43 and `int()` truncates it
to 42, so the code returns 42 where the claim demands 43.  This theorem
evaluates the embedded code at that failing input. -/
theorem c1_code_bug_eval :
    score_vulnerabilities report14low = 43 ∧
    (calculate_risk_score none (some report14low) none).score = 42 := by decide

/-- C4: the transaction-value policy fires iff `value > max_value`, and
`check_transaction` with value 2,000,000,000,000 against the default engine
returns exactly one violation, of high severity, with `passed = False`. -/
theorem c4_value_ceiling :
    (∀ (blocked : Finset String) (p : CompliancePolicy) (m : Int) (sender : String)
        (receiver : Option String) (value gas_used : Int)
        (payload : Option (List (String × String))),
      p.policy_type = PolicyType.transaction_value → p.config.max_value = some m →
      ((check_policy blocked p sender receiver value gas_used payload).isSome ↔ m < value)) ∧
    ((check_transaction PolicyEngine.init "0xsender" none 2000000000000 0 none).violations.map
        (fun v => v.severity) = [PolicySeverity.high] ∧
      (check_transaction PolicyEngine.init "0xsender" none 2000000000000 0 none).passed = false) := by
  constructor
  · intro blocked p m sender receiver value gas_used payload hp hm
    by_cases h : m < value <;> simp [check_policy, hp, hm, h]
  · decide

/-- Closed witness for C4: the default value-ceiling policy fires on value
2,000,000,000,000 against ceiling 1,000,000,000,000. -/
theorem c4_value_ceiling_witness :
    (check_policy ∅ valueCeilingPolicy "0xs" none 2000000000000 0 none).isSome ↔
      (1000000000000 : Int) < 2000000000000 :=
  c4_value_ceiling.1 ∅ valueCeilingPolicy 1000000000000 "0xs" none 2000000000000 0 none rfl rfl

/-- C5: a blocked-address policy yields a violation iff the lower-cased
sender or receiver is in the blocked cache; the sender is checked first and
only the first match is reported; and the concrete case-insensitivity
example (block `0xDEAD`, check sender `0xdead`) yields a critical violation. -/
theorem c5_blocked_address :
    (∀ (blocked : Finset String) (p : CompliancePolicy) (sender receiver : String)
        (value gas_used : Int) (payload : Option (List (String × String))),
      p.policy_type = PolicyType.blocked_address →
      (((check_policy blocked p sender (some receiver) value gas_used payload).isSome ↔
          (strLower sender ∈ blocked ∨ strLower receiver ∈ blocked)) ∧
        (strLower sender ∈ blocked →
          check_policy blocked p sender (some receiver) value gas_used payload =
            some { policy_name := p.name
                   policy_type := p.policy_type
                   severity := p.severity
                   message := "Sender " ++ sender ++ " is blocked"
                   details_role := some "sender" }))) ∧
    ((check_transaction (add_blocked_address PolicyEngine.init "0xDEAD") "0xdead" none 0 0
        none).violations.map (fun v => v.severity) = [PolicySeverity.critical] ∧
      (check_transaction (add_blocked_address PolicyEngine.init "0xDEAD") "0xdead" none 0 0
        none).violations.map (fun v => v.details_role) = [some "sender"] ∧
      (check_transaction (add_blocked_address PolicyEngine.init "0xDEAD") "0xdead" none 0 0
        none).passed = false) := by
  constructor
  · intro blocked p sender receiver value gas_used payload hp
    constructor
    · by_cases hs : strLower sender ∈ blocked
      · simp [check_policy, hp, hs]
      · by_cases hr : strLower receiver ∈ blocked <;> simp [check_policy, hp, hs, hr]
    · intro hs
      simp [check_policy, hp, hs]
  · decide

/-- Closed witness for C5: with `0xdead` in the cache, a sender written
`0xDEAD` produces the sender-role violation even if the receiver differs. -/
theorem c5_blocked_address_witness :
    check_policy ({"0xdead"} : Finset String) blockedPolicy "0xDEAD" (some "0xr") 0 0 none =
      some { policy_name := blockedPolicy.name
             policy_type := blockedPolicy.policy_type
             severity := blockedPolicy.severity
             message := "Sender " ++ "0xDEAD" ++ " is blocked"
             details_role := some "sender" } :=
  (c5_blocked_address.1 ({"0xdead"} : Finset String) blockedPolicy "0xDEAD" "0xr" 0 0 none
    rfl).2 (by decide)

/-- C6: the vulnerability sub-score is 0 for an empty report and otherwise
`min(100, max_severity_score + min(15*critical + 10*high + 5*medium + 2*low, 30))`;
and the concrete example (one critical, two low) yields sub-score 100, final
score 100, level critical. -/
theorem c6_vulnerability_score :
    (∀ r : VulnerabilityReport,
      score_vulnerabilities r =
        if r.vulnerabilities = [] then 0
        else
          min 100
            ((r.vulnerabilities.map (fun v => SEVERITY_SCORES v.severity.value)).foldr max 0 +
              min (15 * r.critical_count + 10 * r.high_count + 5 * r.medium_count +
                2 * r.low_count) 30)) ∧
    (score_vulnerabilities report1c2l = 100 ∧
      (calculate_risk_score none (some report1c2l) none).score = 100 ∧
      (calculate_risk_score none (some report1c2l) none).level = RiskLevel.critical) := by
  constructor
  · intro r
    by_cases h : r.vulnerabilities = []
    · simp [score_vulnerabilities, h]
    · have hb : r.critical_count * 15 + r.high_count * 10 + r.medium_count * 5 +
          r.low_count * 2 =
          15 * r.critical_count + 10 * r.high_count + 5 * r.medium_count +
            2 * r.low_count := by ring
      simp [score_vulnerabilities, h, foldl_max_map, hb]
  · decide

/-- C7 counterexample: the factors list is not deduplicated (two identical
violations yield two identical factor lines), and compliance factors are
formatted `Policy violation: <message>` rather than `<SEVERITY>: <message>`. -/
theorem c7_counterexample :
    (calculate_risk_score (some crDup) none none).factors =
      ["Policy violation: x", "Policy violation: x"] ∧
    ¬ (calculate_risk_score (some crDup) none none).factors.Nodup := by decide

/-- C7 amended: the factors list is the first 10 entries (not deduplicated)
in the order compliance violations, then vulnerability findings, then anomaly
findings, each inner list in source order; compliance entries are formatted
`Policy violation: <message>`, vulnerability and anomaly entries
`<SEVERITY>: <title>`. -/
theorem c7_amended (c : Option ComplianceResult) (v : Option VulnerabilityReport)
    (a : Option AnomalyReport) :
    (calculate_risk_score c v a).factors =
      ((match c with
        | some r => r.violations.map
            (fun vi : PolicyViolation => "Policy violation: " ++ vi.message)
        | none => []) ++
       (match v with
        | some r => r.vulnerabilities.map
            (fun vu : Vulnerability => strUpper vu.severity.value ++ ": " ++ vu.title)
        | none => []) ++
       (match a with
        | some r => r.findings.map
            (fun f : AnomalyFinding => strUpper f.severity ++ ": " ++ f.title)
        | none => [])).take 10 := by
  cases c <;> cases v <;> cases a <;> rfl

/-- C10: the breakdown map has an entry for a category iff the corresponding
input is present, mapped to that category's sub-score; in particular a
present compliance result with zero violations yields the entry
`compliance = 0` rather than an absent key. -/
theorem c10_breakdown (c : Option ComplianceResult) (v : Option VulnerabilityReport)
    (a : Option AnomalyReport) :
    ((calculate_risk_score c v a).breakdown =
      (match c with
       | some r => [("compliance", score_compliance r)]
       | none => []) ++
      (match v with
       | some r => [("vulnerability", score_vulnerabilities r)]
       | none => []) ++
      (match a with
       | some r => [("anomaly", score_anomalies r)]
       | none => [])) ∧
    (calculate_risk_score (some { passed := true, policies_checked := 4 }) none
        none).breakdown = [("compliance", 0)] := by
  constructor
  · cases c <;> cases v <;> cases a <;> rfl
  · decide

/-- C9: with an empty monitored set every event is accepted; with a
non-empty set an event is accepted iff its lower-cased sender is a member;
`add_monitored_address` stores addresses `0x`-prefixed and lower-cased; and
with allow-list from `0xAB`, senders `0xab` and `0xAB` pass while `0xAB1`
and `0xCD` do not. -/
theorem c9_address_filter :
    (∀ event : TransactionEvent, should_process ∅ event = true) ∧
    (∀ (monitored : Finset String) (event : TransactionEvent), monitored ≠ ∅ →
      (should_process monitored event = true ↔ strLower event.sender ∈ monitored)) ∧
    (∀ (monitored : Finset String) (address : String),
      add_monitored_address monitored address =
        insert (strLower (if strStartsWith address "0x" then address else "0x" ++ address))
          monitored) ∧
    (should_process (add_monitored_address ∅ "0xAB") (sampleEvent "0xab") = true ∧
      should_process (add_monitored_address ∅ "0xAB") (sampleEvent "0xAB") = true ∧
      should_process (add_monitored_address ∅ "0xAB") (sampleEvent "0xAB1") = false ∧
      should_process (add_monitored_address ∅ "0xAB") (sampleEvent "0xCD") = false) := by
  refine ⟨?_, ?_, ?_, ?_⟩
  · intro event; simp [should_process]
  · intro monitored event hne
    simp [should_process, hne]
  · intro monitored address; rfl
  · decide

/-- Closed witness for C9: a non-empty allow-list accepts a sender whose
lower-cased form is a member. -/
theorem c9_address_filter_witness :
    should_process (add_monitored_address ∅ "0xAB") (sampleEvent "0xAB") = true :=
  (c9_address_filter.2.1 (add_monitored_address ∅ "0xAB") (sampleEvent "0xAB")
    (by decide)).mpr (by decide)

/-- C8 counterexample: a raw record lacking a hash is not skipped — the
claim says no event is produced or delivered for it, but the monitor parses
it with an empty hash and delivers it. -/
theorem c8_counterexample :
    (poll_transactions s0 [txNoHash]).2.map (fun e => e.hash) = [""] ∧
    (poll_transactions s0 [txNoHash]).2.length = 1 := by decide

/-- C8 amended: a record whose `gas_used` coercion raises is skipped (no
event is produced or delivered for it) and the iteration continues with the
remaining records, though its version still advances the last-seen version;
a record whose `version` coercion raises aborts the remainder of that poll
iteration (state so far is kept, remaining records are dropped until the
next cycle) without crashing the monitor. -/
theorem c8_amended :
    (∀ (s : MonitorState) (tx : RawTx) (rest : List RawTx) (v : Int),
      tx.version = Coerced.ok v → s.lastVersion < v → tx.gas_used = Coerced.err →
      poll_transactions s (tx :: rest) =
        poll_transactions { s with lastVersion := v } rest) ∧
    (∀ (s : MonitorState) (tx : RawTx) (rest : List RawTx),
      tx.version = Coerced.err → poll_transactions s (tx :: rest) = (s, [])) := by
  constructor
  · intro s tx rest v hv hlt hg
    simp [poll_transactions, hv, hlt, parse_transaction, hg]
  · intro s tx rest hv
    simp [poll_transactions, hv]

/-- Closed witness for C8 amended: a gas-coercion failure is skipped with
the version advanced; a version-coercion failure aborts the iteration. -/
theorem c8_amended_witness :
    poll_transactions s0 [txGasErr] = poll_transactions { s0 with lastVersion := 7 } [] ∧
    poll_transactions s0 [txVersionErr] = (s0, []) :=
  ⟨c8_amended.1 s0 txGasErr [] 7 rfl (by decide) rfl,
   c8_amended.2 s0 txVersionErr [] rfl⟩

/-! ## Claims about the policy engine cache -/

theorem spec_blocked_union_upsert (ps : List CompliancePolicy) (p : CompliancePolicy) :
    spec_blocked_union (upsertPolicy ps p) ⊆
      spec_blocked_union ps ∪
        (if p.policy_type = PolicyType.blocked_address
         then (p.config.addresses.map strLower).toFinset else ∅) := by
  induction ps with
  | nil =>
    intro x hx
    rw [upsertPolicy, spec_blocked_union, spec_blocked_union] at hx
    rw [spec_blocked_union]
    simp only [Finset.mem_union, Finset.union_empty, Finset.empty_union] at hx ⊢
    exact hx
  | cons q qs ih =>
    by_cases h : q.name = p.name
    · intro x hx
      rw [upsertPolicy, if_pos h, spec_blocked_union] at hx
      rw [spec_blocked_union]
      simp only [Finset.mem_union] at hx ⊢
      tauto
    · intro x hx
      rw [upsertPolicy, if_neg h, spec_blocked_union] at hx
      rw [spec_blocked_union]
      simp only [Finset.mem_union] at hx ⊢
      rcases hx with h1 | h2
      · tauto
      · rcases Finset.mem_union.mp (ih h2) with h3 | h4
        · tauto
        · tauto

theorem spec_blocked_union_filter (ps : List CompliancePolicy) (n : String) :
    spec_blocked_union (ps.filter (fun p => p.name ≠ n)) ⊆ spec_blocked_union ps := by
  induction ps with
  | nil => intro x hx; exact hx
  | cons q qs ih =>
    by_cases h : q.name = n
    · have hf : (q :: qs).filter (fun p => p.name ≠ n) = qs.filter (fun p => p.name ≠ n) := by
        simp [List.filter_cons, h]
      rw [hf, spec_blocked_union]
      intro x hx
      exact Finset.mem_union_right _ (ih hx)
    · have hf : (q :: qs).filter (fun p => p.name ≠ n) =
          q :: qs.filter (fun p => p.name ≠ n) := by
        simp [List.filter_cons, h]
      rw [hf, spec_blocked_union, spec_blocked_union]
      intro x hx
      rcases Finset.mem_union.mp hx with h1 | h2
      · exact Finset.mem_union_left _ h1
      · exact Finset.mem_union_right _ (ih h2)

theorem spec_blocked_union_append_config (ps : List CompliancePolicy) (a : String) :
    spec_blocked_union (ps.map (append_blocked_config a)) ⊆
      spec_blocked_union ps ∪ {strLower a} := by
  induction ps with
  | nil => intro x hx; exact absurd hx (Finset.not_mem_empty x)
  | cons q qs ih =>
    rw [List.map_cons, spec_blocked_union, spec_blocked_union]
    intro x hx
    rcases Finset.mem_union.mp hx with h1 | h2
    · rw [append_blocked_config] at h1
      by_cases hn : q.name = "blocked_addresses"
      · rw [if_pos hn] at h1
        by_cases hm : a ∈ q.config.addresses
        · rw [if_pos hm] at h1
          exact Finset.mem_union_left _ (Finset.mem_union_left _ h1)
        · rw [if_neg hm] at h1
          by_cases ht : q.policy_type = PolicyType.blocked_address
          · simp only [ht, if_pos] at h1
            rw [List.map_append, List.toFinset_append] at h1
            rcases Finset.mem_union.mp h1 with h3 | h4
            · refine Finset.mem_union_left _ (Finset.mem_union_left _ ?_)
              rw [if_pos ht]
              exact h3
            · simp only [List.map_cons, List.map_nil, List.toFinset_cons,
                List.toFinset_nil] at h4
              exact Finset.mem_union_right _ h4
          · simp only [ht, if_neg, if_false] at h1
            exact absurd h1 (Finset.not_mem_empty x)
      · rw [if_neg hn] at h1
        exact Finset.mem_union_left _ (Finset.mem_union_left _ h1)
    · rcases Finset.mem_union.mp (ih h2) with h3 | h4
      · exact Finset.mem_union_left _ (Finset.mem_union_right _ h3)
      · exact Finset.mem_union_right _ h4

theorem apply_op_covers (e : PolicyEngine) (op : EngineOp)
    (hop : op.isRemoveBlocked = false)
    (h : spec_blocked_union e.policies ⊆ e.blocked_addresses) :
    spec_blocked_union (apply_op e op).policies ⊆ (apply_op e op).blocked_addresses := by
  cases op with
  | addPol p =>
    intro x hx
    have hx2 := spec_blocked_union_upsert e.policies p hx
    show x ∈ (add_policy e p).blocked_addresses
    rw [add_policy]
    rcases Finset.mem_union.mp hx2 with h1 | h2
    · by_cases ht : p.policy_type = PolicyType.blocked_address
      · simp only [ht, if_pos]
        exact Finset.mem_union_left _ (h h1)
      · simp only [ht, if_neg, if_false]
        exact h h1
    · by_cases ht : p.policy_type = PolicyType.blocked_address
      · rw [if_pos ht] at h2
        simp only [ht, if_pos]
        exact Finset.mem_union_right _ h2
      · rw [if_neg ht] at h2
        exact absurd h2 (Finset.not_mem_empty x)
  | removePol n =>
    intro x hx
    exact h (spec_blocked_union_filter e.policies n hx)
  | addBlocked a =>
    intro x hx
    have hx2 := spec_blocked_union_append_config e.policies a hx
    show x ∈ insert (strLower a) e.blocked_addresses
    rcases Finset.mem_union.mp hx2 with h1 | h2
    · exact Finset.mem_insert_of_mem (h h1)
    · rw [Finset.mem_singleton] at h2
      exact h2 ▸ Finset.mem_insert_self _ _
  | removeBlocked a => simp [EngineOp.isRemoveBlocked] at hop

theorem apply_ops_covers (ops : List EngineOp) : ∀ e : PolicyEngine,
    (∀ op ∈ ops, op.isRemoveBlocked = false) →
    spec_blocked_union e.policies ⊆ e.blocked_addresses →
    spec_blocked_union (apply_ops e ops).policies ⊆ (apply_ops e ops).blocked_addresses := by
  induction ops with
  | nil => intro e _ h; exact h
  | cons op rest ih =>
    intro e hops h
    exact ih (apply_op e op) (fun o ho => hops o (List.mem_cons_of_mem _ ho))
      (apply_op_covers e op (hops op (List.mem_cons_self _ _)) h)

/-- C2 counterexample: blocking `0xdead` and then unblocking it leaves the
address in the `blocked_addresses` policy's configured list but not in the
cache, so the cache does not equal the union of the configured lists. -/
theorem c2_counterexample :
    ¬ (engine_add_remove_blocked.blocked_addresses =
        spec_blocked_union engine_add_remove_blocked.policies) := by decide

/-- C2 amended: for every sequence of `add_policy`, `remove_policy` and
`add_blocked_address` operations on a freshly initialized engine, the
in-memory cache contains the union of the lower-cased configured address
lists of all currently registered blocked-address policies (equality fails
in general: `remove_policy` leaves the removed policy's addresses in the
cache, and `remove_blocked_address` removes the address from the cache but
not from the configured list, breaking even containment). -/
theorem c2_amended (ops : List EngineOp)
    (h : ∀ op ∈ ops, op.isRemoveBlocked = false) :
    spec_blocked_union (apply_ops PolicyEngine.init ops).policies ⊆
      (apply_ops PolicyEngine.init ops).blocked_addresses :=
  apply_ops_covers ops PolicyEngine.init h (by decide)

/-- Closed witness for C2 amended: one `add_blocked_address` call. -/
theorem c2_amended_witness :
    spec_blocked_union (apply_ops PolicyEngine.init [EngineOp.addBlocked "0xBAD"]).policies ⊆
      (apply_ops PolicyEngine.init [EngineOp.addBlocked "0xBAD"]).blocked_addresses :=
  c2_amended [EngineOp.addBlocked "0xBAD"] (by decide)

/-! ## Claims about the transaction monitor -/

theorem poll_transactions_spec (txs : List RawTx) : ∀ s : MonitorState,
    s.lastVersion ≤ (poll_transactions s txs).1.lastVersion ∧
    (∀ e ∈ (poll_transactions s txs).2,
      s.lastVersion < e.version ∧ e.version ≤ (poll_transactions s txs).1.lastVersion) ∧
    ((poll_transactions s txs).2.map (fun e => e.version)).Pairwise (fun a b => a < b) := by
  induction txs with
  | nil =>
    intro s
    simp [poll_transactions]
  | cons tx rest ih =>
    intro s
    cases hv : tx.version with
    | err =>
      simp [poll_transactions, hv]
    | ok v =>
      by_cases hlt : s.lastVersion < v
      · cases hp : parse_transaction tx with
        | none =>
          have heq : poll_transactions s (tx :: rest) =
              poll_transactions { s with lastVersion := v } rest := by
            simp [poll_transactions, hv, hlt, hp]
          rw [heq]
          have h1 := ih { s with lastVersion := v }
          refine ⟨le_trans (le_of_lt hlt) h1.1, ?_, h1.2.2⟩
          intro e he
          exact ⟨lt_trans hlt (h1.2.1 e he).1, (h1.2.1 e he).2⟩
        | some event =>
          have hev : event.version = v := parse_transaction_version hv hp
          by_cases hsp :
              should_process ({ s with lastVersion := v } : MonitorState).monitored event = true
          · have heq : poll_transactions s (tx :: rest) =
                ((poll_transactions
                    { s with lastVersion := v,
                             recent := push_recent s.recent event } rest).1,
                  event ::
                    (poll_transactions
                      { s with lastVersion := v,
                               recent := push_recent s.recent event } rest).2) := by
              simp [poll_transactions, hv, hlt, hp, hsp]
            rw [heq]
            have h1 := ih { s with lastVersion := v, recent := push_recent s.recent event }
            refine ⟨le_trans (le_of_lt hlt) h1.1, ?_, ?_⟩
            · intro e he
              rcases List.mem_cons.mp he with he1 | he2
              · subst he1
                exact ⟨hev ▸ hlt, hev ▸ h1.1⟩
              · exact ⟨lt_trans hlt (h1.2.1 e he2).1, (h1.2.1 e he2).2⟩
            · rw [List.map_cons, List.pairwise_cons]
              refine ⟨?_, h1.2.2⟩
              intro b hb
              rcases List.mem_map.mp hb with ⟨eb, heb, hbv⟩
              rw [← hbv, hev]
              exact (h1.2.1 eb heb).1
          · have heq : poll_transactions s (tx :: rest) =
                poll_transactions { s with lastVersion := v } rest := by
              simp [poll_transactions, hv, hlt, hp, hsp]
            rw [heq]
            have h1 := ih { s with lastVersion := v }
            refine ⟨le_trans (le_of_lt hlt) h1.1, ?_, h1.2.2⟩
            intro e he
            exact ⟨lt_trans hlt (h1.2.1 e he).1, (h1.2.1 e he).2⟩
      · have heq : poll_transactions s (tx :: rest) = poll_transactions s rest := by
          simp [poll_transactions, hv, hlt]
        rw [heq]
        exact ih s

theorem run_polls_spec (polls : List (List RawTx)) : ∀ s : MonitorState,
    s.lastVersion ≤ (run_polls s polls).1.lastVersion ∧
    (∀ e ∈ (run_polls s polls).2,
      s.lastVersion < e.version ∧ e.version ≤ (run_polls s polls).1.lastVersion) ∧
    ((run_polls s polls).2.map (fun e => e.version)).Pairwise (fun a b => a < b) := by
  induction polls with
  | nil =>
    intro s
    simp [run_polls]
  | cons page rest ih =>
    intro s
    have heq : run_polls s (page :: rest) =
        ((run_polls (poll_transactions s page).1 rest).1,
          (poll_transactions s page).2 ++ (run_polls (poll_transactions s page).1 rest).2) := by
      simp [run_polls]
    rw [heq]
    have hp := poll_transactions_spec page s
    have hr := ih (poll_transactions s page).1
    refine ⟨le_trans hp.1 hr.1, ?_, ?_⟩
    · intro e he
      rcases List.mem_append.mp he with h1 | h2
      · exact ⟨(hp.2.1 e h1).1, le_trans (hp.2.1 e h1).2 hr.1⟩
      · exact ⟨lt_of_le_of_lt hp.1 (hr.2.1 e h2).1, (hr.2.1 e h2).2⟩
    · rw [List.map_append, List.pairwise_append]
      refine ⟨hp.2.2, hr.2.2, ?_⟩
      intro a ha b hb
      rcases List.mem_map.mp ha with ⟨ea, hea, hav⟩
      rcases List.mem_map.mp hb with ⟨eb, heb, hbv⟩
      rw [← hav, ← hbv]
      exact lt_of_le_of_lt (hp.2.1 ea hea).2 (hr.2.1 eb heb).1

/-- C3: over any sequence of poll iterations on arbitrary raw pages, the
versions of the events the monitor delivers are strictly increasing across
its lifetime, and no version is ever delivered twice. -/
theorem c3_delivered_versions (s : MonitorState) (polls : List (List RawTx)) :
    ((run_polls s polls).2.map (fun e => e.version)).Pairwise (fun a b => a < b) ∧
    ((run_polls s polls).2.map (fun e => e.version)).Nodup := by
  have h := (run_polls_spec polls s).2.2
  exact ⟨h, h.imp (fun hab => ne_of_lt hab)⟩
